import Mathlib

/-!
Verification of the pypll clock-synchronization controller.

The development shallow-embeds the two Python source files:
  * `adjtimex/adjtimex.py` — the thin kernel clock interface (the `Timex`
    and `Timeval` structures, the mode/status constants, and the `adjtimex`
    wrapper that raises an OS error exactly when the kernel call returns -1);
  * `pypll.py` — the `PyPLL` controller (two-state machine `FREE_RUNNING` /
    `LOCKED`, offset processing, time stepping, frequency get/set).

Modelling conventions:
  * Python floats are modelled as rationals (`ℚ`), with decimal literals read
    exactly; Python ints are `ℤ`.
  * Python `round` is round-half-to-even (`pyRound`), Python `int()` on a
    float truncates toward zero (`pyInt`), Python `//` on ints is floor
    division (`Int.fdiv`).
  * The kernel is an oracle `Nat → KResp` giving, for the n-th call made by
    the process, the return value of the raw `adjtimex` syscall, the value of
    `errno`, the `strerror` text, and the structure the kernel writes back.
    Each controller method threads a `KState` that counts calls and records
    the requests issued (the trace), and returns `Except OsError` mirroring
    Python exception propagation (the source contains no try/except).
-/

namespace Adjtimex

/-- Mode bits of the kernel clock interface (from adjtimex.py). -/
def ADJ_OFFSET : Nat := 1
def ADJ_FREQUENCY : Nat := 2
def ADJ_MAXERROR : Nat := 4
def ADJ_ESTERROR : Nat := 8
def ADJ_STATUS : Nat := 16
def ADJ_TIMECONST : Nat := 32
def ADJ_SETOFFSET : Nat := 256
def ADJ_MICRO : Nat := 4096
def ADJ_NANO : Nat := 8192
def ADJ_TAI : Nat := 128
def ADJ_TICK : Nat := 16384
def ADJ_OFFSET_SINGLESHOT : Nat := 32769
def ADJ_OFFSET_SS_READ : Nat := 40961

/-- Status bits (from adjtimex.py). -/
def STA_PLL : Nat := 1
def STA_PPSFREQ : Nat := 2
def STA_PPSTIME : Nat := 4
def STA_FLL : Nat := 8
def STA_INS : Nat := 16
def STA_DEL : Nat := 32
def STA_UNSYNC : Nat := 64
def STA_FREQHOLD : Nat := 128

/-- Clock-sync quality return values (from adjtimex.py). -/
def TIME_OK : Int := 0
def TIME_INS : Int := 1
def TIME_DEL : Int := 2
def TIME_OOP : Int := 3
def TIME_WAIT : Int := 4
def TIME_ERROR : Int := 5

/-- The kernel `timeval` structure: seconds and microseconds, both signed. -/
structure Timeval where
  tv_sec : Int := 0
  tv_usec : Int := 0
  deriving Repr, DecidableEq

/-- The kernel `timex` structure (ctypes zero-initializes omitted fields,
hence the defaults). Read-only jitter/stability counters that pypll never
touches are kept for layout fidelity. -/
structure Timex where
  modes : Nat := 0
  offset : Int := 0
  freq : Int := 0
  maxerror : Int := 0
  esterror : Int := 0
  status : Nat := 0
  constant : Int := 0
  precision : Int := 0
  tolerance : Int := 0
  time : Timeval := {}
  tick : Int := 0
  ppsfreq : Int := 0
  jitter : Int := 0
  shift : Int := 0
  stabil : Int := 0
  jitcnt : Int := 0
  calcnt : Int := 0
  errcnt : Int := 0
  stbcnt : Int := 0
  tai : Int := 0
  deriving Repr, DecidableEq

/-- The typed error raised by the `adjtimex` wrapper: the OS error code and
the message `"%d: %s" % (errno, os.strerror(errno))`. -/
structure OsError where
  code : Int
  message : String
  deriving Repr, DecidableEq

/-- One kernel response: the raw syscall return value, the `errno` value and
`strerror` text in effect if it failed, and the structure written back. -/
structure KResp where
  res : Int := 0
  errnoVal : Int := 0
  strerrorMsg : String := ""
  readback : Timex := {}
  deriving Repr, DecidableEq

/-- Call-threading state: how many kernel calls have been made by this
process, and the trace of requests issued so far. -/
structure KState where
  idx : Nat := 0
  trace : List Timex := []
  deriving Repr, DecidableEq

/-- The error value built at adjtimex.py line 119:
`EnvironmentError(errno, "%d: %s" % (errno, os.strerror(errno)))`. -/
def osErrorOf (r : KResp) : OsError :=
  { code := r.errnoVal
    message := toString r.errnoVal ++ ": " ++ r.strerrorMsg }

/-- The `adjtimex(timex)` wrapper (adjtimex.py lines 113-121): issue the
kernel call; if it returns -1, raise an `OsError` from `errno`; otherwise
return the kernel's result code together with the written-back structure. -/
def adjtimexRun (o : Nat → KResp) (req : Timex) (s : KState) :
    KState × Except OsError (Int × Timex) :=
  let r := o s.idx
  let s' : KState := { idx := s.idx + 1, trace := s.trace ++ [req] }
  if r.res = -1 then
    (s', Except.error (osErrorOf r))
  else
    (s', Except.ok (r.res, r.readback))

/-- A kernel oracle on which no call fails. -/
def Succeeds (o : Nat → KResp) : Prop :=
  ∀ n, (o n).res ≠ -1

end Adjtimex

namespace PyPLLModel

open Adjtimex

/-- Python `round` on a rational: round half to even (banker's rounding),
written via the floor `⌊q⌋` and the fractional part `q - ⌊q⌋`. -/
def pyRound (q : ℚ) : ℤ :=
  if q - (⌊q⌋ : ℚ) < 1/2 then ⌊q⌋
  else if 1/2 < q - (⌊q⌋ : ℚ) then ⌊q⌋ + 1
  else if ⌊q⌋ % 2 = 0 then ⌊q⌋ else ⌊q⌋ + 1

/-- Python `int()` on a float: truncation toward zero. -/
def pyInt (q : ℚ) : ℤ :=
  if 0 ≤ q then ⌊q⌋ else ⌈q⌉

/-- `SEC_TO_FREQ = 65536000000`: ppm with a 16-bit fractional part. -/
def SEC_TO_FREQ : ℤ := 65536000000

/-- Module constant `MAX_OFFSET = 0.5`. -/
def MAX_OFFSET : ℚ := 5/10

/-- Module constant `SYNC_OFFSET = 0.005`. -/
def SYNC_OFFSET : ℚ := 5/1000

/-- `PyPLL.FREE_RUNNING = 0`. -/
def FREE_RUNNING : Nat := 0

/-- `PyPLL.LOCKED = 1`. -/
def LOCKED : Nat := 1

/-- The controller's instance attributes: `__init__` assigns only
`self.state` and `self.max_offset` (the `sync_offset` argument is checked by
the assert but not stored). -/
structure PyPLL where
  state : Nat
  max_offset : ℚ
  deriving Repr, DecidableEq

/-- `PyPLL.__init__(max_offset, sync_offset)` (pypll.py lines 56-59):
`assert max_offset >= sync_offset`, then `self.state = FREE_RUNNING`,
`self.max_offset = max_offset`. A failed assert raises, modelled as
`Except.error`. -/
def PyPLL.init (max_offset sync_offset : ℚ) : Except String PyPLL :=
  if max_offset ≥ sync_offset then
    Except.ok { state := FREE_RUNNING, max_offset := max_offset }
  else
    Except.error "AssertionError"

/-- `PyPLL.clear_time_state` (pypll.py lines 89-97): two status-only kernel
calls, the first with `status=STA_PLL`, the second with default status 0.
An exception from the first call propagates before the second is issued. -/
def PyPLL.clear_time_state (o : Nat → KResp) (s : KState) :
    KState × Except OsError Unit :=
  match adjtimexRun o { modes := ADJ_STATUS, status := STA_PLL } s with
  | (s1, Except.error e) => (s1, Except.error e)
  | (s1, Except.ok _) =>
    match adjtimexRun o { modes := ADJ_STATUS } s1 with
    | (s2, Except.error e) => (s2, Except.error e)
    | (s2, Except.ok _) => (s2, Except.ok ())

/-- The timeval computed by `PyPLL.timestep` (pypll.py lines 109-112):
`microseconds = int(round(seconds * 1000000))`,
`seconds_int = microseconds // 1000000` (floor division),
`usec = microseconds - seconds_int * 1000000`. -/
def timestepTimeval (seconds : ℚ) : Timeval :=
  { tv_sec := Int.fdiv (pyRound (seconds * 1000000)) 1000000
    tv_usec := pyRound (seconds * 1000000)
      - Int.fdiv (pyRound (seconds * 1000000)) 1000000 * 1000000 }

/-- `PyPLL.timestep(seconds)` (pypll.py lines 99-117): one kernel call with
`modes = ADJ_SETOFFSET | ADJ_MICRO` carrying the floor-decomposed timeval. -/
def PyPLL.timestep (o : Nat → KResp) (seconds : ℚ) (s : KState) :
    KState × Except OsError Unit :=
  match adjtimexRun o
      { modes := ADJ_SETOFFSET ||| ADJ_MICRO, time := timestepTimeval seconds }
      s with
  | (s1, Except.error e) => (s1, Except.error e)
  | (s1, Except.ok _) => (s1, Except.ok ())

/-- The tick computed by `PyPLL.set_speed` (pypll.py line 129):
`tick = int(factor * 10000 + 0.5)`. -/
def set_speed_tick (factor : ℚ) : ℤ :=
  pyInt (factor * 10000 + 5/10)

/-- The frequency computed by `PyPLL.set_speed` (pypll.py lines 130-131):
`remainder = factor - (tick / 10000.0)`,
`freq = int(round(remainder * SEC_TO_FREQ))`. -/
def set_speed_freq (factor : ℚ) : ℤ :=
  pyRound ((factor - (set_speed_tick factor : ℚ) / 10000) * (SEC_TO_FREQ : ℚ))

/-- `PyPLL.set_speed(factor)` (pypll.py lines 119-138): one kernel call with
frequency + tick + status modes, `status = STA_PLL`. -/
def PyPLL.set_speed (o : Nat → KResp) (factor : ℚ) (s : KState) :
    KState × Except OsError Unit :=
  match adjtimexRun o
      { modes := ADJ_FREQUENCY ||| ADJ_TICK ||| ADJ_STATUS
        freq := set_speed_freq factor
        tick := set_speed_tick factor
        status := STA_PLL }
      s with
  | (s1, Except.error e) => (s1, Except.error e)
  | (s1, Except.ok _) => (s1, Except.ok ())

/-- The reconstruction performed by `PyPLL.get_speed` (pypll.py line 150):
`speed = float(tick) / 10000 + float(freq) / SEC_TO_FREQ`. -/
def get_speed_from (tick freq : ℤ) : ℚ :=
  (tick : ℚ) / 10000 + (freq : ℚ) / (SEC_TO_FREQ : ℚ)

/-- `PyPLL.get_speed()` (pypll.py lines 140-152): one zero-mode (read-only)
kernel call, then reconstruct the speed from the written-back tick and
frequency. -/
def PyPLL.get_speed (o : Nat → KResp) (s : KState) :
    KState × Except OsError ℚ :=
  match adjtimexRun o { modes := 0 } s with
  | (s1, Except.error e) => (s1, Except.error e)
  | (s1, Except.ok (_, rb)) => (s1, Except.ok (get_speed_from rb.tick rb.freq))

/-- The microsecond offset computed by `PyPLL.set_offset` (pypll.py line
164): `offset_us = int(offset * 1000000)` — truncation toward zero. -/
def set_offset_us (offset : ℚ) : ℤ :=
  pyInt (offset * 1000000)

/-- `PyPLL.set_offset(offset)` (pypll.py lines 154-171): one kernel call with
modes `ADJ_OFFSET | ADJ_STATUS | ADJ_MICRO | ADJ_MAXERROR`, `maxerror` the
absolute value of `offset_us`, and `status = STA_PLL`. -/
def PyPLL.set_offset (o : Nat → KResp) (offset : ℚ) (s : KState) :
    KState × Except OsError Unit :=
  match adjtimexRun o
      { modes := ADJ_OFFSET ||| ADJ_STATUS ||| ADJ_MICRO ||| ADJ_MAXERROR
        offset := set_offset_us offset
        maxerror := |set_offset_us offset|
        status := STA_PLL }
      s with
  | (s1, Except.error e) => (s1, Except.error e)
  | (s1, Except.ok _) => (s1, Except.ok ())

/-- The state transition evaluated at the top of `PyPLL.process_offset`
(pypll.py lines 76-79): unlock if `abs(offset) > self.max_offset`, lock if
`abs(offset) < SYNC_OFFSET` (the module constant), else keep the state. -/
def processState (p : PyPLL) (offset : ℚ) : Nat :=
  if |offset| > p.max_offset then FREE_RUNNING
  else if |offset| < SYNC_OFFSET then LOCKED
  else p.state

/-- `PyPLL.process_offset(offset)` (pypll.py lines 61-87): update the state,
then in `FREE_RUNNING` clear the time state and make a timestep, otherwise
pass the offset to the kernel PLL. Returns the updated controller, the kernel
call state, and the outcome. -/
def PyPLL.process_offset (p : PyPLL) (o : Nat → KResp) (offset : ℚ)
    (s : KState) : PyPLL × KState × Except OsError Unit :=
  if processState p offset = FREE_RUNNING then
    match PyPLL.clear_time_state o s with
    | (s1, Except.error e) =>
      ({ p with state := processState p offset }, s1, Except.error e)
    | (s1, Except.ok _) =>
      match PyPLL.timestep o offset s1 with
      | (s2, r2) => ({ p with state := processState p offset }, s2, r2)
  else
    match PyPLL.set_offset o offset s with
    | (s1, r1) => ({ p with state := processState p offset }, s1, r1)

/-- An oracle on which every kernel call succeeds with result `TIME_OK` and a
zeroed written-back structure. -/
def okOracle : Nat → KResp := fun _ => {}

/-- An oracle on which every kernel call fails with `EPERM` (the documented
insufficient-privilege failure). -/
def failOracle : Nat → KResp :=
  fun _ => { res := -1, errnoVal := 1, strerrorMsg := "Operation not permitted" }

/-- A controller as built by `PyPLL()` with the default thresholds: initial
state `FREE_RUNNING`, `max_offset = MAX_OFFSET`. -/
def pll0 : PyPLL := { state := FREE_RUNNING, max_offset := MAX_OFFSET }

/-- A controller with the default `max_offset` that has already locked. -/
def pllLocked : PyPLL := { state := LOCKED, max_offset := MAX_OFFSET }

end PyPLLModel

namespace PyPLLModel

open Adjtimex

/-- Python rounding lands within half a unit of its argument. -/
theorem abs_pyRound_sub_le (q : ℚ) : |(pyRound q : ℚ) - q| ≤ 1/2 := by
  have h0 : (⌊q⌋ : ℚ) ≤ q := Int.floor_le q
  have h1 : q < (⌊q⌋ : ℚ) + 1 := Int.lt_floor_add_one q
  unfold pyRound
  split
  · rw [abs_sub_comm, abs_of_nonneg (by linarith)]
    linarith
  · split
    · rw [abs_of_nonneg (by push_cast; linarith)]
      push_cast
      linarith
    · split
      · rw [abs_sub_comm, abs_of_nonneg (by linarith)]
        linarith
      · rw [abs_of_nonneg (by push_cast; linarith)]
        push_cast
        linarith

/-- The timestep decomposition recombines to the rounded microsecond offset,
and the microsecond remainder always lies in `[0, 1000000)`. -/
theorem timestepTimeval_spec (seconds : ℚ) :
    (timestepTimeval seconds).tv_sec * 1000000
        + (timestepTimeval seconds).tv_usec
      = pyRound (seconds * 1000000) ∧
    0 ≤ (timestepTimeval seconds).tv_usec ∧
    (timestepTimeval seconds).tv_usec < 1000000 := by
  unfold timestepTimeval
  rw [Int.fdiv_eq_ediv _ (by norm_num)]
  dsimp only
  omega

/-- An `adjtimex` call whose syscall succeeds: the request is appended to the
trace and the kernel result and read-back are returned. -/
theorem adjtimexRun_ok (o : Nat → KResp) (req : Timex) (s : KState)
    (h : (o s.idx).res ≠ -1) :
    adjtimexRun o req s =
      ({ idx := s.idx + 1, trace := s.trace ++ [req] },
       Except.ok ((o s.idx).res, (o s.idx).readback)) := by
  unfold adjtimexRun
  rw [if_neg h]

/-- An `adjtimex` call whose syscall fails: the request is still appended to
the trace (the syscall was issued) and the `OsError` is raised. -/
theorem adjtimexRun_err (o : Nat → KResp) (req : Timex) (s : KState)
    (h : (o s.idx).res = -1) :
    adjtimexRun o req s =
      ({ idx := s.idx + 1, trace := s.trace ++ [req] },
       Except.error (osErrorOf (o s.idx))) := by
  unfold adjtimexRun
  rw [if_pos h]

/-- The all-success oracle never reports failure. -/
theorem okOracle_succeeds : Succeeds okOracle := by
  intro n
  simp [okOracle, Succeeds]

/-- `clear_time_state` on a succeeding oracle issues exactly its two
status-only requests. -/
theorem clear_time_state_ok (o : Nat → KResp) (s : KState) (hok : Succeeds o) :
    PyPLL.clear_time_state o s =
      ({ idx := s.idx + 2,
         trace := s.trace ++
           [{ modes := ADJ_STATUS, status := STA_PLL },
            { modes := ADJ_STATUS }] },
       Except.ok ()) := by
  unfold PyPLL.clear_time_state
  rw [adjtimexRun_ok o _ s (hok s.idx)]
  dsimp only
  rw [adjtimexRun_ok o _ _ (hok _)]
  simp

/-- `timestep` on a succeeding oracle issues exactly its one step request. -/
theorem timestep_ok (o : Nat → KResp) (seconds : ℚ) (s : KState)
    (hok : Succeeds o) :
    PyPLL.timestep o seconds s =
      ({ idx := s.idx + 1,
         trace := s.trace ++
           [{ modes := ADJ_SETOFFSET ||| ADJ_MICRO,
              time := timestepTimeval seconds }] },
       Except.ok ()) := by
  unfold PyPLL.timestep
  rw [adjtimexRun_ok o _ s (hok s.idx)]

/-- `set_offset` on a succeeding oracle issues exactly its one PLL request. -/
theorem set_offset_ok (o : Nat → KResp) (offset : ℚ) (s : KState)
    (hok : Succeeds o) :
    PyPLL.set_offset o offset s =
      ({ idx := s.idx + 1,
         trace := s.trace ++
           [{ modes := ADJ_OFFSET ||| ADJ_STATUS ||| ADJ_MICRO ||| ADJ_MAXERROR,
              offset := set_offset_us offset,
              maxerror := |set_offset_us offset|,
              status := STA_PLL }] },
       Except.ok ()) := by
  unfold PyPLL.set_offset
  rw [adjtimexRun_ok o _ s (hok s.idx)]

/-- The controller returned by `process_offset` is the input controller with
the state updated by the transition guard, on every path. -/
theorem process_offset_fst (p : PyPLL) (o : Nat → KResp) (offset : ℚ)
    (s : KState) :
    (PyPLL.process_offset p o offset s).1
      = { p with state := processState p offset } := by
  unfold PyPLL.process_offset
  split
  · split <;> rfl
  · split
    rfl

/-- `process_offset` in the free-running branch on a succeeding oracle:
two status-only calls, then the step call. -/
theorem process_offset_free (p : PyPLL) (o : Nat → KResp) (offset : ℚ)
    (s : KState) (hok : Succeeds o)
    (h : processState p offset = FREE_RUNNING) :
    PyPLL.process_offset p o offset s =
      ({ p with state := processState p offset },
       { idx := s.idx + 3,
         trace := s.trace ++
           [{ modes := ADJ_STATUS, status := STA_PLL },
            { modes := ADJ_STATUS },
            { modes := ADJ_SETOFFSET ||| ADJ_MICRO,
              time := timestepTimeval offset }] },
       Except.ok ()) := by
  unfold PyPLL.process_offset
  rw [if_pos h, clear_time_state_ok o s hok]
  dsimp only
  rw [timestep_ok o offset _ hok]
  simp

/-- `process_offset` in the locked branch on a succeeding oracle:
exactly the one `set_offset` call. -/
theorem process_offset_locked (p : PyPLL) (o : Nat → KResp) (offset : ℚ)
    (s : KState) (hok : Succeeds o)
    (h : processState p offset ≠ FREE_RUNNING) :
    PyPLL.process_offset p o offset s =
      ({ p with state := processState p offset },
       { idx := s.idx + 1,
         trace := s.trace ++
           [{ modes := ADJ_OFFSET ||| ADJ_STATUS ||| ADJ_MICRO ||| ADJ_MAXERROR,
              offset := set_offset_us offset,
              maxerror := |set_offset_us offset|,
              status := STA_PLL }] },
       Except.ok ()) := by
  unfold PyPLL.process_offset
  rw [if_neg h, set_offset_ok o offset s hok]

/-- Any error surfaced by one `adjtimex` call is the failure of that very
call, with the `OsError` built from its `errno`. -/
theorem adjtimexRun_error_cases (o : Nat → KResp) (req : Timex) (s : KState)
    (e : OsError) (h : (adjtimexRun o req s).2 = Except.error e) :
    (o s.idx).res = -1 ∧ e = osErrorOf (o s.idx) := by
  by_cases hres : (o s.idx).res = -1
  · rw [adjtimexRun_err o req s hres] at h
    exact ⟨hres, (Except.error.inj h).symm⟩
  · rw [adjtimexRun_ok o req s hres] at h
    exact absurd h (by simp)

/-- An error out of `clear_time_state` is some kernel call's failure,
propagated unchanged. -/
theorem clear_time_state_error (o : Nat → KResp) (s : KState) (e : OsError)
    (h : (PyPLL.clear_time_state o s).2 = Except.error e) :
    ∃ i, (o i).res = -1 ∧ e = osErrorOf (o i) := by
  unfold PyPLL.clear_time_state at h
  by_cases h1 : (o s.idx).res = -1
  · rw [adjtimexRun_err o _ s h1] at h
    exact ⟨s.idx, h1, (Except.error.inj h).symm⟩
  · rw [adjtimexRun_ok o _ s h1] at h
    dsimp only at h
    by_cases h2 : (o (s.idx + 1)).res = -1
    · rw [adjtimexRun_err o _ _ h2] at h
      exact ⟨s.idx + 1, h2, (Except.error.inj h).symm⟩
    · rw [adjtimexRun_ok o _ _ h2] at h
      exact absurd h (by simp)

/-- An error out of `timestep` is its kernel call's failure, unchanged. -/
theorem timestep_error (o : Nat → KResp) (seconds : ℚ) (s : KState)
    (e : OsError) (h : (PyPLL.timestep o seconds s).2 = Except.error e) :
    ∃ i, (o i).res = -1 ∧ e = osErrorOf (o i) := by
  unfold PyPLL.timestep at h
  by_cases h1 : (o s.idx).res = -1
  · rw [adjtimexRun_err o _ s h1] at h
    exact ⟨s.idx, h1, (Except.error.inj h).symm⟩
  · rw [adjtimexRun_ok o _ s h1] at h
    exact absurd h (by simp)

/-- An error out of `set_offset` is its kernel call's failure, unchanged. -/
theorem set_offset_error (o : Nat → KResp) (offset : ℚ) (s : KState)
    (e : OsError) (h : (PyPLL.set_offset o offset s).2 = Except.error e) :
    ∃ i, (o i).res = -1 ∧ e = osErrorOf (o i) := by
  unfold PyPLL.set_offset at h
  by_cases h1 : (o s.idx).res = -1
  · rw [adjtimexRun_err o _ s h1] at h
    exact ⟨s.idx, h1, (Except.error.inj h).symm⟩
  · rw [adjtimexRun_ok o _ s h1] at h
    exact absurd h (by simp)

/-- An error out of `set_speed` is its kernel call's failure, unchanged. -/
theorem set_speed_error (o : Nat → KResp) (factor : ℚ) (s : KState)
    (e : OsError) (h : (PyPLL.set_speed o factor s).2 = Except.error e) :
    ∃ i, (o i).res = -1 ∧ e = osErrorOf (o i) := by
  unfold PyPLL.set_speed at h
  by_cases h1 : (o s.idx).res = -1
  · rw [adjtimexRun_err o _ s h1] at h
    exact ⟨s.idx, h1, (Except.error.inj h).symm⟩
  · rw [adjtimexRun_ok o _ s h1] at h
    exact absurd h (by simp)

/-- An error out of `get_speed` is its kernel call's failure, unchanged. -/
theorem get_speed_error (o : Nat → KResp) (s : KState) (e : OsError)
    (h : (PyPLL.get_speed o s).2 = Except.error e) :
    ∃ i, (o i).res = -1 ∧ e = osErrorOf (o i) := by
  unfold PyPLL.get_speed at h
  by_cases h1 : (o s.idx).res = -1
  · rw [adjtimexRun_err o _ s h1] at h
    exact ⟨s.idx, h1, (Except.error.inj h).symm⟩
  · rw [adjtimexRun_ok o _ s h1] at h
    exact absurd h (by simp)

/-- An error out of `process_offset` is some kernel call's failure,
propagated unchanged through whichever branch ran. -/
theorem process_offset_error (p : PyPLL) (o : Nat → KResp) (offset : ℚ)
    (s : KState) (e : OsError)
    (h : (PyPLL.process_offset p o offset s).2.2 = Except.error e) :
    ∃ i, (o i).res = -1 ∧ e = osErrorOf (o i) := by
  unfold PyPLL.process_offset at h
  split at h
  · split at h
    · rename_i s1 e1 heq
      refine clear_time_state_error o s e ?_
      rw [heq]
      dsimp only at h ⊢
      exact h
    · rename_i s1 v heq2
      split at h
      rename_i s2 r2 heq3
      dsimp only at h
      refine timestep_error o offset s1 e ?_
      rw [heq3]
      exact h
  · split at h
    rename_i s1 r1 heq
    dsimp only at h
    refine set_offset_error o offset s e ?_
    rw [heq]
    exact h

end PyPLLModel

namespace PyPLLModel

open Adjtimex

/-- Claim C1: the claim says a controller constructed with thresholds
`max_offset`, `sync_offset` locks whenever `abs(offset) < sync_offset`. The
code violates it: `__init__` never stores `sync_offset` (contradicting its
own docstring), and `process_offset` compares against the module constant
`SYNC_OFFSET = 0.005`. Evaluated at the failing input
`PyPLL(max_offset=0.5, sync_offset=0.4)`, `process_offset(0.1)`: although
`abs(0.1) < 0.4`, the state stays `FREE_RUNNING`, not `LOCKED`. -/
theorem C1_sync_offset_ignored :
    PyPLL.init (5/10) (4/10) = Except.ok pll0 ∧
    |(1/10 : ℚ)| < 4/10 ∧
    (PyPLL.process_offset pll0 okOracle (1/10) {}).1.state = FREE_RUNNING ∧
    FREE_RUNNING ≠ LOCKED := by
  refine ⟨?_, by norm_num [abs_of_pos], ?_, by decide⟩
  · unfold PyPLL.init pll0 MAX_OFFSET
    rw [if_pos (by norm_num)]
  · rw [process_offset_fst]
    show processState pll0 (1/10) = FREE_RUNNING
    unfold processState pll0 MAX_OFFSET SYNC_OFFSET FREE_RUNNING
    rw [abs_of_pos (by norm_num : (0:ℚ) < 1/10)]
    norm_num

/-- Claim C2: the claim says the state is unchanged for
`sync_offset <= abs(offset) <= max_offset` with the constructed thresholds.
The code violates it for the same reason as C1: at the failing input
`PyPLL(max_offset=0.5, sync_offset=0.001)`, `process_offset(0.003)` from
`FREE_RUNNING`, the offset is inside the constructed dead zone yet the
controller transitions to `LOCKED` because `0.003 < SYNC_OFFSET = 0.005`. -/
theorem C2_dead_zone_violated :
    PyPLL.init (5/10) (1/1000) = Except.ok pll0 ∧
    (1/1000 : ℚ) ≤ |(3/1000 : ℚ)| ∧ |(3/1000 : ℚ)| ≤ 5/10 ∧
    pll0.state = FREE_RUNNING ∧
    (PyPLL.process_offset pll0 okOracle (3/1000) {}).1.state = LOCKED ∧
    LOCKED ≠ FREE_RUNNING := by
  refine ⟨?_, by norm_num [abs_of_pos], by norm_num [abs_of_pos], rfl, ?_,
    by decide⟩
  · unfold PyPLL.init pll0 MAX_OFFSET
    rw [if_pos (by norm_num)]
  · rw [process_offset_fst]
    show processState pll0 (3/1000) = LOCKED
    unfold processState pll0 MAX_OFFSET SYNC_OFFSET LOCKED
    rw [abs_of_pos (by norm_num : (0:ℚ) < 3/1000)]
    norm_num

/-- Claim C3 counterexample: at `offset = -0.5` (post-transition state
`FreeRunning`), the step call carries `tv_sec = -1`, `tv_usec = 500000`; the
claimed sign condition for negative offsets (`-1000000 < usec <= 0`) fails
since `500000 > 0`. -/
theorem C3_counterexample :
    (-(5/10) : ℚ) < 0 ∧
    (PyPLL.process_offset pll0 okOracle (-(5/10)) {}).1.state
      = FREE_RUNNING ∧
    List.filter (fun t => t.modes == ADJ_SETOFFSET ||| ADJ_MICRO)
        (PyPLL.process_offset pll0 okOracle (-(5/10)) {}).2.1.trace
      = [{ modes := ADJ_SETOFFSET ||| ADJ_MICRO,
           time := { tv_sec := -1, tv_usec := 500000 } }] ∧
    ¬((500000 : ℤ) ≤ 0) := by
  have hst : processState pll0 (-(5/10)) = FREE_RUNNING := by
    unfold processState pll0 MAX_OFFSET SYNC_OFFSET FREE_RUNNING
    rw [abs_of_nonpos (by norm_num : (-(5/10) : ℚ) ≤ 0)]
    norm_num
  refine ⟨by norm_num, ?_, ?_, by decide⟩
  · rw [process_offset_fst]
    exact hst
  · rw [process_offset_free pll0 okOracle (-(5/10)) {} okOracle_succeeds hst]
    have htv : timestepTimeval (-(5/10))
        = { tv_sec := -1, tv_usec := 500000 } := by
      unfold timestepTimeval pyRound
      norm_num
      decide
    rw [htv]
    simp [ADJ_STATUS, ADJ_SETOFFSET, ADJ_MICRO, List.filter]

/-- Claim C3 (amended): when the post-transition state is `FreeRunning`,
exactly one step-mode kernel call is issued, carrying a timeval decomposition
of `offset` with `seconds_int*1000000 + usec = round(offset*1000000)` and
`0 <= usec < 1000000` for every offset (floor decomposition: a negative
offset gets a more negative `tv_sec` and a non-negative `usec`). -/
theorem C3_amended_step_decomposition (p : PyPLL) (o : Nat → KResp)
    (offset : ℚ) (hok : Succeeds o)
    (h : (PyPLL.process_offset p o offset {}).1.state = FREE_RUNNING) :
    List.filter (fun t => t.modes == ADJ_SETOFFSET ||| ADJ_MICRO)
        (PyPLL.process_offset p o offset {}).2.1.trace
      = [{ modes := ADJ_SETOFFSET ||| ADJ_MICRO,
           time := timestepTimeval offset }] ∧
    (timestepTimeval offset).tv_sec * 1000000
        + (timestepTimeval offset).tv_usec
      = pyRound (offset * 1000000) ∧
    0 ≤ (timestepTimeval offset).tv_usec ∧
    (timestepTimeval offset).tv_usec < 1000000 := by
  have hst : processState p offset = FREE_RUNNING := by
    rw [process_offset_fst] at h
    exact h
  rw [process_offset_free p o offset {} hok hst]
  refine ⟨?_, timestepTimeval_spec offset⟩
  simp [ADJ_STATUS, ADJ_SETOFFSET, ADJ_MICRO, List.filter]

/-- Witness for C3 (amended): concrete run at `offset = 0.2` on the default
controller with an all-success kernel. -/
theorem C3_witness :
    Succeeds okOracle ∧
    (PyPLL.process_offset pll0 okOracle (2/10) {}).1.state = FREE_RUNNING ∧
    (List.filter (fun t => t.modes == ADJ_SETOFFSET ||| ADJ_MICRO)
        (PyPLL.process_offset pll0 okOracle (2/10) {}).2.1.trace
      = [{ modes := ADJ_SETOFFSET ||| ADJ_MICRO,
           time := timestepTimeval (2/10) }] ∧
    (timestepTimeval (2/10)).tv_sec * 1000000
        + (timestepTimeval (2/10)).tv_usec
      = pyRound ((2/10 : ℚ) * 1000000) ∧
    0 ≤ (timestepTimeval (2/10)).tv_usec ∧
    (timestepTimeval (2/10)).tv_usec < 1000000) := by
  have hfr : (PyPLL.process_offset pll0 okOracle (2/10) {}).1.state
      = FREE_RUNNING := by
    rw [process_offset_fst]
    show processState pll0 (2/10) = FREE_RUNNING
    unfold processState pll0 MAX_OFFSET SYNC_OFFSET FREE_RUNNING
    rw [abs_of_pos (by norm_num : (0:ℚ) < 2/10)]
    norm_num
  exact ⟨okOracle_succeeds, hfr,
    C3_amended_step_decomposition pll0 okOracle (2/10) okOracle_succeeds hfr⟩

/-- Claim C4 counterexample: at `offset = 0.0000015` the post-transition
state is `Locked` and the single kernel call carries `maxerror = 1`
(truncation of `1.5`), while `abs(round(offset*1000000)) = |2| = 2`; the
claimed equality fails. -/
theorem C4_counterexample :
    (PyPLL.process_offset pll0 okOracle (3/2000000) {}).1.state = LOCKED ∧
    (PyPLL.process_offset pll0 okOracle (3/2000000) {}).2.1.trace
      = [{ modes := ADJ_OFFSET ||| ADJ_STATUS ||| ADJ_MICRO ||| ADJ_MAXERROR,
           offset := 1, maxerror := 1, status := STA_PLL }] ∧
    pyRound ((3/2000000 : ℚ) * 1000000) = 2 ∧
    ((1 : ℤ) ≠ |(2 : ℤ)|) := by
  have hst : processState pll0 (3/2000000) = LOCKED := by
    unfold processState pll0 MAX_OFFSET SYNC_OFFSET LOCKED
    rw [abs_of_pos (by norm_num : (0:ℚ) < 3/2000000)]
    norm_num
  have hne : processState pll0 (3/2000000) ≠ FREE_RUNNING := by
    rw [hst]
    decide
  refine ⟨?_, ?_, ?_, by decide⟩
  · rw [process_offset_fst]
    exact hst
  · rw [process_offset_locked pll0 okOracle (3/2000000) {}
      okOracle_succeeds hne]
    have hus : set_offset_us (3/2000000) = 1 := by
      unfold set_offset_us pyInt
      norm_num
    rw [hus]
    simp
  · unfold pyRound
    norm_num

/-- Claim C4 (amended): when the post-transition state is `Locked`, exactly
one kernel call is issued, with modes
`ADJ_OFFSET | ADJ_STATUS | ADJ_MICRO | ADJ_MAXERROR`, the PLL-enable status
bit set, and `maxerror = abs(int(offset*1000000))` where `int` truncates
toward zero (not round-to-nearest as claimed). -/
theorem C4_amended_locked_action (p : PyPLL) (o : Nat → KResp) (offset : ℚ)
    (hok : Succeeds o)
    (h : (PyPLL.process_offset p o offset {}).1.state = LOCKED) :
    (PyPLL.process_offset p o offset {}).2.1.trace
      = [{ modes := ADJ_OFFSET ||| ADJ_STATUS ||| ADJ_MICRO ||| ADJ_MAXERROR,
           offset := set_offset_us offset,
           maxerror := |set_offset_us offset|,
           status := STA_PLL }] := by
  have hst : processState p offset = LOCKED := by
    rw [process_offset_fst] at h
    exact h
  have hne : processState p offset ≠ FREE_RUNNING := by
    rw [hst]
    decide
  rw [process_offset_locked p o offset {} hok hne]
  simp

/-- Witness for C4 (amended): concrete run at `offset = 0.002` (scenario D)
on the default controller with an all-success kernel. -/
theorem C4_witness :
    Succeeds okOracle ∧
    (PyPLL.process_offset pll0 okOracle (2/1000) {}).1.state = LOCKED ∧
    (PyPLL.process_offset pll0 okOracle (2/1000) {}).2.1.trace
      = [{ modes := ADJ_OFFSET ||| ADJ_STATUS ||| ADJ_MICRO ||| ADJ_MAXERROR,
           offset := set_offset_us (2/1000),
           maxerror := |set_offset_us (2/1000)|,
           status := STA_PLL }] := by
  have hl : (PyPLL.process_offset pll0 okOracle (2/1000) {}).1.state
      = LOCKED := by
    rw [process_offset_fst]
    show processState pll0 (2/1000) = LOCKED
    unfold processState pll0 MAX_OFFSET SYNC_OFFSET LOCKED
    rw [abs_of_pos (by norm_num : (0:ℚ) < 2/1000)]
    norm_num
  exact ⟨okOracle_succeeds, hl,
    C4_amended_locked_action pll0 okOracle (2/1000) okOracle_succeeds hl⟩

/-- Claim C5: for every offset with `abs(offset) > max_offset`, the state
after `process_offset(offset)` is `FreeRunning`, regardless of prior state
(pypll.py lines 76-77). -/
theorem C5_large_offset_forces_free_running (p : PyPLL) (o : Nat → KResp)
    (offset : ℚ) (s : KState) (h : |offset| > p.max_offset) :
    (PyPLL.process_offset p o offset s).1.state = FREE_RUNNING := by
  rw [process_offset_fst]
  show processState p offset = FREE_RUNNING
  unfold processState
  rw [if_pos h]

/-- Witness for C5: starting from `Locked`, `process_offset(0.52)` with the
default `max_offset = 0.5` (scenario C) ends in `FreeRunning`. -/
theorem C5_witness :
    |(52/100 : ℚ)| > pllLocked.max_offset ∧
    (PyPLL.process_offset pllLocked okOracle (52/100) {}).1.state
      = FREE_RUNNING :=
  ⟨by norm_num [pllLocked, MAX_OFFSET, abs_of_pos],
   C5_large_offset_forces_free_running pllLocked okOracle (52/100) {}
     (by norm_num [pllLocked, MAX_OFFSET, abs_of_pos])⟩

/-- Claim C6 counterexample: in the `FreeRunning` branch (offset `0.2`,
default controller) the FIRST status-only call carries `status = STA_PLL`,
i.e. it sets (enables) the PLL status bit rather than disabling it as the
claim orders the calls. -/
theorem C6_counterexample :
    (PyPLL.process_offset pll0 okOracle (2/10) {}).1.state = FREE_RUNNING ∧
    ((PyPLL.process_offset pll0 okOracle (2/10) {}).2.1.trace.head?.map
        (fun (t : Timex) => t.status &&& STA_PLL)) = some STA_PLL ∧
    STA_PLL ≠ 0 := by
  have hst : processState pll0 (2/10) = FREE_RUNNING := by
    unfold processState pll0 MAX_OFFSET SYNC_OFFSET FREE_RUNNING
    rw [abs_of_pos (by norm_num : (0:ℚ) < 2/10)]
    norm_num
  refine ⟨?_, ?_, by decide⟩
  · rw [process_offset_fst]
    exact hst
  · rw [process_offset_free pll0 okOracle (2/10) {} okOracle_succeeds hst]
    simp [STA_PLL]

/-- Claim C6 (amended): when the post-transition state is `FreeRunning`, the
kernel calls issued are, in order: a status-only call that SETS the PLL
status bit (`status = STA_PLL`), then a status-only call writing status 0
(clearing every status bit, hence disabling the PLL), then exactly one step
call with `ADJ_SETOFFSET | ADJ_MICRO` carrying the full offset; no other
calls are made in that branch. -/
theorem C6_amended_free_running_calls (p : PyPLL) (o : Nat → KResp)
    (offset : ℚ) (hok : Succeeds o)
    (h : (PyPLL.process_offset p o offset {}).1.state = FREE_RUNNING) :
    (PyPLL.process_offset p o offset {}).2.1.trace
      = [{ modes := ADJ_STATUS, status := STA_PLL },
         { modes := ADJ_STATUS },
         { modes := ADJ_SETOFFSET ||| ADJ_MICRO,
           time := timestepTimeval offset }] := by
  have hst : processState p offset = FREE_RUNNING := by
    rw [process_offset_fst] at h
    exact h
  rw [process_offset_free p o offset {} hok hst]
  simp

/-- Witness for C6 (amended): concrete run at `offset = 0.2` (scenario A). -/
theorem C6_witness :
    Succeeds okOracle ∧
    (PyPLL.process_offset pll0 okOracle (2/10) {}).1.state = FREE_RUNNING ∧
    (PyPLL.process_offset pll0 okOracle (2/10) {}).2.1.trace
      = [{ modes := ADJ_STATUS, status := STA_PLL },
         { modes := ADJ_STATUS },
         { modes := ADJ_SETOFFSET ||| ADJ_MICRO,
           time := timestepTimeval (2/10) }] := by
  have hfr : (PyPLL.process_offset pll0 okOracle (2/10) {}).1.state
      = FREE_RUNNING := by
    rw [process_offset_fst]
    show processState pll0 (2/10) = FREE_RUNNING
    unfold processState pll0 MAX_OFFSET SYNC_OFFSET FREE_RUNNING
    rw [abs_of_pos (by norm_num : (0:ℚ) < 2/10)]
    norm_num
  exact ⟨okOracle_succeeds, hfr,
    C6_amended_free_running_calls pll0 okOracle (2/10) okOracle_succeeds hfr⟩

/-- Claim C7: for every factor in `[0.999, 1.001]`, decoding the frequency
encoding produced by `set_speed(factor)` via `get_speed`'s reconstruction
(`tick/10000 + freq/SEC_TO_FREQ`) yields a value within `1e-9` of the
factor. -/
theorem C7_round_trip (factor : ℚ) (h1 : 999/1000 ≤ factor)
    (h2 : factor ≤ 1001/1000) :
    |get_speed_from (set_speed_tick factor) (set_speed_freq factor) - factor|
      < 1/1000000000 := by
  have key := abs_pyRound_sub_le
    ((factor - (set_speed_tick factor : ℚ) / 10000) * (SEC_TO_FREQ : ℚ))
  rw [abs_le] at key
  rw [abs_lt]
  unfold SEC_TO_FREQ at key
  unfold get_speed_from set_speed_freq SEC_TO_FREQ
  push_cast at key ⊢
  constructor <;> linarith

/-- Witness for C7: the round trip at `factor = 1` (scenario E). -/
theorem C7_witness :
    (999/1000 : ℚ) ≤ 1 ∧ (1 : ℚ) ≤ 1001/1000 ∧
    |get_speed_from (set_speed_tick 1) (set_speed_freq 1) - 1|
      < 1/1000000000 :=
  ⟨by norm_num, by norm_num, C7_round_trip 1 (by norm_num) (by norm_num)⟩

/-- Claim C8: constructing with `sync_offset > max_offset` fails at
construction time (the assert raises); constructing with
`max_offset >= sync_offset` succeeds and starts in `FreeRunning`. -/
theorem C8_constructor (max_offset sync_offset : ℚ) :
    (sync_offset > max_offset →
      PyPLL.init max_offset sync_offset = Except.error "AssertionError") ∧
    (max_offset ≥ sync_offset →
      PyPLL.init max_offset sync_offset
        = Except.ok { state := FREE_RUNNING, max_offset := max_offset }) := by
  constructor
  · intro h
    unfold PyPLL.init
    rw [if_neg (by intro hc; exact absurd hc (not_le.mpr h))]
  · intro h
    unfold PyPLL.init
    rw [if_pos h]

/-- Witness for C8: a failing construction (`0.001 < 0.003`) and a
succeeding default-threshold construction. -/
theorem C8_witness :
    PyPLL.init (1/1000) (3/1000) = Except.error "AssertionError" ∧
    PyPLL.init (5/10) (5/1000)
      = Except.ok { state := FREE_RUNNING, max_offset := 5/10 } :=
  ⟨(C8_constructor (1/1000) (3/1000)).1 (by norm_num),
   (C8_constructor (5/10) (5/1000)).2 (by norm_num)⟩

/-- Claim C9: `adjtimex` raises an `OsError` carrying the OS error code
exactly when the kernel call returns -1, and otherwise returns the kernel's
clock-sync quality indicator; every controller method propagates such a
failure unchanged (the error surfaced is precisely the `OsError` of a failed
kernel call — no retry, catch, or suppression). -/
theorem C9_error_propagation (o : Nat → KResp) (req : Timex) (s : KState)
    (p : PyPLL) (x : ℚ) (e : OsError) :
    ((o s.idx).res = -1 →
      (adjtimexRun o req s).2 = Except.error (osErrorOf (o s.idx)) ∧
      (osErrorOf (o s.idx)).code = (o s.idx).errnoVal) ∧
    ((o s.idx).res ≠ -1 →
      (adjtimexRun o req s).2
        = Except.ok ((o s.idx).res, (o s.idx).readback)) ∧
    ((PyPLL.process_offset p o x s).2.2 = Except.error e →
      ∃ i, (o i).res = -1 ∧ e = osErrorOf (o i)) ∧
    ((PyPLL.clear_time_state o s).2 = Except.error e →
      ∃ i, (o i).res = -1 ∧ e = osErrorOf (o i)) ∧
    ((PyPLL.timestep o x s).2 = Except.error e →
      ∃ i, (o i).res = -1 ∧ e = osErrorOf (o i)) ∧
    ((PyPLL.set_offset o x s).2 = Except.error e →
      ∃ i, (o i).res = -1 ∧ e = osErrorOf (o i)) ∧
    ((PyPLL.set_speed o x s).2 = Except.error e →
      ∃ i, (o i).res = -1 ∧ e = osErrorOf (o i)) ∧
    ((PyPLL.get_speed o s).2 = Except.error e →
      ∃ i, (o i).res = -1 ∧ e = osErrorOf (o i)) :=
  ⟨fun h => ⟨by rw [adjtimexRun_err o req s h], rfl⟩,
   fun h => by rw [adjtimexRun_ok o req s h],
   process_offset_error p o x s e,
   clear_time_state_error o s e,
   timestep_error o x s e,
   set_offset_error o x s e,
   set_speed_error o x s e,
   get_speed_error o s e⟩

/-- Witness for C9: on the always-EPERM kernel, `adjtimex` raises the EPERM
`OsError` and `process_offset` surfaces exactly that error. -/
theorem C9_witness :
    (failOracle 0).res = -1 ∧
    (adjtimexRun failOracle { modes := 0 } {}).2
      = Except.error (osErrorOf (failOracle 0)) ∧
    (PyPLL.process_offset pll0 failOracle (2/10) {}).2.2
      = Except.error (osErrorOf (failOracle 0)) ∧
    (∃ i, (failOracle i).res = -1 ∧
      osErrorOf (failOracle 0) = osErrorOf (failOracle i)) := by
  have hconc : (PyPLL.process_offset pll0 failOracle (2/10) {}).2.2
      = Except.error (osErrorOf (failOracle 0)) := by
    have hst : processState pll0 (2/10) = FREE_RUNNING := by
      unfold processState pll0 MAX_OFFSET SYNC_OFFSET FREE_RUNNING
      rw [abs_of_pos (by norm_num : (0:ℚ) < 2/10)]
      norm_num
    unfold PyPLL.process_offset
    rw [if_pos hst]
    unfold PyPLL.clear_time_state
    rw [adjtimexRun_err failOracle _ {} rfl]
  refine ⟨rfl, ?_, hconc, ?_⟩
  · exact ((C9_error_propagation failOracle { modes := 0 } {} pll0 (2/10)
      (osErrorOf (failOracle 0))).1 rfl).1
  · exact (C9_error_propagation failOracle { modes := 0 } {} pll0 (2/10)
      (osErrorOf (failOracle 0))).2.2.1 hconc

/-- Claim C10: for every seconds value, positive or negative, the timestep
decomposition satisfies
`seconds_int*1000000 + usec = round(seconds*1000000)` with
`0 <= usec < 1000000` always — a negative offset is carried as a floored
(more negative) `tv_sec` with a non-negative microsecond remainder, never as
a negative `usec`. -/
theorem C10_floor_decomposition (seconds : ℚ) :
    (timestepTimeval seconds).tv_sec * 1000000
        + (timestepTimeval seconds).tv_usec
      = pyRound (seconds * 1000000) ∧
    0 ≤ (timestepTimeval seconds).tv_usec ∧
    (timestepTimeval seconds).tv_usec < 1000000 :=
  timestepTimeval_spec seconds

end PyPLLModel
